import Mathlib

/-!
Verification of the DocMind document-store / content-loader / derived-result
cache logic, shallowly embedded from the TypeScript sources:
  - frontend/src/contexts/DocumentContext.tsx    (document store)
  - frontend/src/utils/fileStorage.ts            (content loader)
  - frontend/src/pages/SimilarIdeas.tsx          (similarity cache page)
  - the AI-insights and podcast pages            (identical cache pattern)
Asynchronous awaits are modelled by passing the awaited outcome as an explicit
parameter; `localStorage` is modelled as a record of optional typed values
(the JSON round trip is assumed faithful).
-/

namespace DocMind

/-- Substring occurrence test over the character data, modelling the JavaScript
`String.prototype.includes`. -/
def strHasSub (s pat : String) : Bool :=
  (List.range (s.data.length + 1)).any (fun i => List.isPrefixOf pat.data (s.data.drop i))

/-- The JavaScript `String.prototype.startsWith`, over the character data. -/
def strStarts (s pat : String) : Bool :=
  List.isPrefixOf pat.data s.data

/-- The `DocumentFile` interface of DocumentContext.tsx (lines 5-16). -/
structure DocumentFile where
  id : String
  name : String
  size : Nat
  type : String
  folderName : String
  savedPath : String
  timestamp : String
  pages : Option Nat := none
  lastRead : Option String := none
  content : Option String := none
deriving Repr, DecidableEq

/-- `Array.prototype.join(",")`. -/
def joinComma : List String → String
  | [] => ""
  | [x] => x
  | x :: y :: xs => x ++ "," ++ joinComma (y :: xs)

/-- The comparison used by the JavaScript default `Array.prototype.sort` on id
strings: lexicographic string order. -/
def idLe (a b : String) : Bool := decide (a ≤ b)

/-- The document-set fingerprint
`[...currentFiles.map(f => f.id), ...previousFiles.map(f => f.id)].sort().join(",")`
(SimilarIdeas.tsx lines 49-52; the insights and podcast pages compute the
identical expression). -/
def documentStateId (currentFiles previousFiles : List DocumentFile) : String :=
  joinComma ((currentFiles.map (fun f => f.id) ++ previousFiles.map (fun f => f.id)).mergeSort idLe)

/-- Result type of the content loader (`PDFContent` in fileStorage.ts). -/
structure PDFContent where
  text : String
  pages : Nat
  title : String
deriving Repr, DecidableEq

/-- The JSON body of a successful `/extract-pdf-path` response.  `text` and
`page_count` are optional so that the JavaScript truthiness defaults
(`result.text || ...`, `result.page_count || 1`) can be modelled; a present
empty string / zero is falsy in JavaScript and is treated like absence. -/
structure APIResponse where
  filename : String
  page_count : Option Nat
  text : Option String
deriving Repr, DecidableEq

/-- Outcome of the raced fetch in `fetchWithTimeout` (fileStorage.ts lines
519-531): the response arrived (ok or not), the fetch promise rejected with a
message, or the 30s timer won the race. -/
inductive FetchOutcome
  | success (resp : APIResponse)
  | httpError (status : Nat) (body : String)
  | networkError (msg : String)
  | timeout
deriving Repr, DecidableEq

/-- `fileName.replace(".pdf", "")`: JavaScript `String.prototype.replace` with a
string pattern removes only the first occurrence. -/
def stripPdfExtAux : List Char → List Char
  | [] => []
  | c :: rest =>
    if List.isPrefixOf ".pdf".data (c :: rest) then rest.drop 3
    else c :: stripPdfExtAux rest

def stripPdfExt (s : String) : String := ⟨stripPdfExtAux s.data⟩

/-- The error message of the timer promise in `createTimeout` at the 30000 ms
timeout used by `extractPDFContentFromPath`. -/
def timeoutMsg : String := "Request timeout after 30000ms"

/-- The network-unreachable diagnostic text returned by
`extractPDFContentFromPath` (fileStorage.ts lines 570-587). -/
def cannotConnectDiag (apiBase : String) : String :=
  "Cannot connect to backend server\n\nThe PDF extraction service is not reachable. This could be due to:\n- backend server is not running\n- CORS configuration issues  \n- Network connectivity problems\n\nPlease ensure the backend is running on " ++ apiBase ++ "\n\nTo start the backend:\ncd backend  \npython pdf_extractor.py"

/-- The generic failure diagnostic text returned by
`extractPDFContentFromPath` (fileStorage.ts lines 590-599). -/
def genericDiag (fileName errorMessage apiBase : String) : String :=
  "Error processing " ++ fileName ++ "\n\n" ++ errorMessage ++ "\n\nbackend is running at: " ++ apiBase ++ "\nPlease check the backend logs for more details."

/-- `extractPDFContentFromPath` (fileStorage.ts lines 534-601).  The awaited
network outcome is passed as a parameter; `apiBase` is the module constant
`API_BASE_URL` (environment dependent).  The function never throws: every
failure is encoded as diagnostic text with `pages = 1`. -/
def extractPDFContentFromPath (savedPath fileName : String) (apiBase : String)
    (outcome : FetchOutcome) : PDFContent :=
  match outcome with
  | .success r =>
      { text := match r.text with
          | some t => if t = "" then "No text content found in PDF" else t
          | none => "No text content found in PDF"
        pages := match r.page_count with
          | some p => if p = 0 then 1 else p
          | none => 1
        title := stripPdfExt fileName }
  | .httpError status body =>
      let errorMessage := "HTTP " ++ toString status ++ ": " ++ body
      if strHasSub errorMessage "Failed to fetch" || strHasSub errorMessage "NetworkError" then
        { text := cannotConnectDiag apiBase, pages := 1, title := stripPdfExt fileName }
      else
        { text := genericDiag fileName errorMessage apiBase, pages := 1, title := stripPdfExt fileName }
  | .networkError msg =>
      if strHasSub msg "Failed to fetch" || strHasSub msg "NetworkError" then
        { text := cannotConnectDiag apiBase, pages := 1, title := stripPdfExt fileName }
      else
        { text := genericDiag fileName msg apiBase, pages := 1, title := stripPdfExt fileName }
  | .timeout =>
      if strHasSub timeoutMsg "Failed to fetch" || strHasSub timeoutMsg "NetworkError" then
        { text := cannotConnectDiag apiBase, pages := 1, title := stripPdfExt fileName }
      else
        { text := genericDiag fileName timeoutMsg apiBase, pages := 1, title := stripPdfExt fileName }

/-! ## The document store (DocumentContext.tsx) -/

/-- The React state held by `DocumentProvider` (DocumentContext.tsx lines 41-46). -/
structure DocState where
  previousFiles : List DocumentFile
  currentFiles : List DocumentFile
  selectedFile : Option DocumentFile
  isInitialSetupComplete : Bool
  isLoadingContent : Bool
deriving Repr, DecidableEq

/-- The error-content sentinel vocabulary recognized by `selectFile`
(DocumentContext.tsx lines 150-158). -/
def isErrorContentStr (c : String) : Bool :=
  strHasSub c "Cannot extract content" ||
  strHasSub c "Error:" ||
  strHasSub c "backend not running" ||
  strHasSub c "Error Loading Content" ||
  strHasSub c "timeout" ||
  strHasSub c "HTTP 404" ||
  strHasSub c "File not found"

/-- JavaScript truthiness of the optional `content` field (absent or the empty
string are falsy). -/
def contentTruthy : Option String → Bool
  | none => false
  | some c => !(c == "")

/-- `const isErrorContent = file.content && (...)` coerced to a boolean. -/
def isErrorContent (f : DocumentFile) : Bool :=
  match f.content with
  | none => false
  | some c => !(c == "") && isErrorContentStr c

/-- `const hasValidContent = file.content && !isErrorContent`. -/
def hasValidContent (f : DocumentFile) : Bool :=
  contentTruthy f.content && !(isErrorContent f)

/-- `file.savedPath.startsWith("uploaded/") || file.savedPath.startsWith("failed/")`. -/
def isUploadedFile (f : DocumentFile) : Bool :=
  strStarts f.savedPath "uploaded/" || strStarts f.savedPath "failed/"

/-- `file.savedPath.startsWith("data/") && file.savedPath.includes("/")`: the
known-invalid legacy path format. -/
def isLegacyDataPath (f : DocumentFile) : Bool :=
  strStarts f.savedPath "data/" && strHasSub f.savedPath "/"

/-- The "Content Missing" sentinel (DocumentContext.tsx line 177). -/
def contentMissingSentinel : String :=
  "⚠️ Content Missing\n\nThis file was uploaded but the content is missing.\nTry refreshing the page or re-uploading the file."

/-- The "Error Loading Content" sentinel (DocumentContext.tsx line 237). -/
def errorLoadingSentinel : String :=
  "❌ Error Loading Content\n\nFailed to extract content from this PDF file.\nPlease try selecting the file again."

/-- The "File Removed" tombstone (DocumentContext.tsx line 307). -/
def fileRemovedSentinel : String :=
  "🗑️ File Removed\n\nThis file was cached with an invalid path and has been removed.\nPlease re-upload your PDF file to access its content."

/-- Observable side effects of a `selectFile` call: writes to the
`isLoadingContent` flag and extraction requests issued to the backend. -/
inductive SelectEvent
  | setLoading (b : Bool)
  | extractReq (path : String)
deriving Repr, DecidableEq

/-- `selectFile` (DocumentContext.tsx lines 130-250).  The awaited result of
`extractPDFContentFromPath` is passed as `outcome` (`Except` models a rejected
await; the real loader resolves, but the `catch` handles any rejection), and
`now` stands for `new Date().toLocaleString()`.  Returns the new store state
together with the trace of loading-flag writes and extraction requests. -/
def selectFile (s : DocState) (file : DocumentFile)
    (outcome : Except String PDFContent) (now : String) :
    DocState × List SelectEvent :=
  -- Prevent multiple simultaneous extractions (lines 142-145)
  if s.isLoadingContent then (s, [])
  else
    let s := { s with selectedFile := some file }
    let errC := isErrorContent file
    let hasValid := hasValidContent file
    let uploaded := isUploadedFile file
    -- If file was uploaded and has content, no need to extract (lines 167-170)
    if uploaded && hasValid then (s, [])
    -- If file was uploaded but has no content, show error (lines 173-181)
    else if uploaded && !hasValid then
      ({ s with selectedFile := some { file with content := some contentMissingSentinel } }, [])
    -- If the file has no content OR has error content, extract it (lines 184-244)
    else if !(contentTruthy file.content) || errC then
      if isLegacyDataPath file then
        -- throw at line 196, caught at line 232, finally at line 241
        ({ s with selectedFile := some { file with content := some errorLoadingSentinel },
                  isLoadingContent := false },
         [SelectEvent.setLoading true, SelectEvent.setLoading false])
      else if uploaded then
        -- throw at line 202 (unreachable given the early returns above)
        ({ s with selectedFile := some { file with content := some errorLoadingSentinel },
                  isLoadingContent := false },
         [SelectEvent.setLoading true, SelectEvent.setLoading false])
      else
        match outcome with
        | .ok extractedContent =>
          let updatedFile := { file with
            content := some extractedContent.text,
            pages := some extractedContent.pages,
            lastRead := some now }
          ({ s with
              previousFiles := s.previousFiles.map (fun f => if f.id = file.id then updatedFile else f),
              currentFiles := s.currentFiles.map (fun f => if f.id = file.id then updatedFile else f),
              selectedFile := some updatedFile,
              isLoadingContent := false },
           [SelectEvent.setLoading true, SelectEvent.extractReq file.savedPath,
            SelectEvent.setLoading false])
        | .error _ =>
          ({ s with selectedFile := some { file with content := some errorLoadingSentinel },
                    isLoadingContent := false },
           [SelectEvent.setLoading true, SelectEvent.extractReq file.savedPath,
            SelectEvent.setLoading false])
    else (s, [])

/-- `forceRefreshFile` (DocumentContext.tsx lines 288-327). -/
def forceRefreshFile (s : DocState) (file : DocumentFile)
    (outcome : Except String PDFContent) (now : String) :
    DocState × List SelectEvent :=
  if isLegacyDataPath file then
    -- remove from both lists, then the tombstone overwrites the cleared selection
    ({ s with
        previousFiles := s.previousFiles.filter (fun f => f.id ≠ file.id),
        currentFiles := s.currentFiles.filter (fun f => f.id ≠ file.id),
        selectedFile := some { file with content := some fileRemovedSentinel } }, [])
  else
    let clearedFile := { file with content := none }
    let s := { s with
        previousFiles := s.previousFiles.map (fun f => if f.id = file.id then clearedFile else f),
        currentFiles := s.currentFiles.map (fun f => if f.id = file.id then clearedFile else f) }
    selectFile s clearedFile outcome now

/-- Outcome of the best-effort `/api/remove-document` call. -/
inductive RemoteResult
  | ok
  | httpError (status : Nat)
  | rejected (msg : String)
deriving Repr, DecidableEq

/-- `removeCurrentFile` (DocumentContext.tsx lines 329-373).  The remote
outcome is only logged; local removal proceeds regardless. -/
def removeCurrentFile (s : DocState) (fileId : String) (remote : RemoteResult) : DocState :=
  match s.currentFiles.find? (fun f => f.id = fileId) with
  | none => s
  | some _ =>
    -- the fetch happens here; `remote` is ignored on every branch
    let _ := remote
    { s with
        currentFiles := s.currentFiles.filter (fun f => f.id ≠ fileId),
        selectedFile := match s.selectedFile with
          | some sf => if sf.id = fileId then none else some sf
          | none => none }

/-- `removePreviousFile` (DocumentContext.tsx lines 375-419). -/
def removePreviousFile (s : DocState) (fileId : String) (remote : RemoteResult) : DocState :=
  match s.previousFiles.find? (fun f => f.id = fileId) with
  | none => s
  | some _ =>
    let _ := remote
    { s with
        previousFiles := s.previousFiles.filter (fun f => f.id ≠ fileId),
        selectedFile := match s.selectedFile with
          | some sf => if sf.id = fileId then none else some sf
          | none => none }

/-- `addCurrentFile` (DocumentContext.tsx lines 122-124). -/
def addCurrentFile (s : DocState) (file : DocumentFile) : DocState :=
  { s with currentFiles := s.currentFiles ++ [file] }

/-- `addPreviousFiles` (DocumentContext.tsx lines 126-128). -/
def addPreviousFiles (s : DocState) (files : List DocumentFile) : DocState :=
  { s with previousFiles := s.previousFiles ++ files }

/-- The `localStorage` keys touched by the document store and the three
derived-result caches, each holding an optional serialized value. -/
structure PersistedStore where
  isInitialSetupComplete : Option String
  previousFiles : Option String
  currentFiles : Option String
  aiPodcastRecommendations : Option String
  aiPodcastRecommendations_state : Option String
  documentSimilarities : Option String
  documentSimilarities_state : Option String
  aiInsights : Option String
  aiInsights_state : Option String
deriving Repr, DecidableEq

/-- `resetAll` (DocumentContext.tsx lines 265-286): clears the in-memory state
and removes every persisted key, including all three derived-result caches and
their fingerprints. -/
def resetAll (s : DocState) (st : PersistedStore) : DocState × PersistedStore :=
  let _ := s
  ({ previousFiles := [], currentFiles := [], selectedFile := none,
     isInitialSetupComplete := false, isLoadingContent := false },
   { isInitialSetupComplete := none, previousFiles := none, currentFiles := none,
     aiPodcastRecommendations := none, aiPodcastRecommendations_state := none,
     documentSimilarities := none, documentSimilarities_state := none,
     aiInsights := none, aiInsights_state := none })

/-! ## The derived-result cache pattern

The three pages (SimilarIdeas.tsx, the AI-insights page, the podcast page)
instantiate a textually identical pattern: a `useState` initializer that reads
the persisted result set, a save effect, a clear effect keyed on
`lastDocumentState`, and a conditional load effect.  The result items are kept
abstract as strings. -/

/-- In-memory React state of one cache component: the result list and the
`lastDocumentState` tracker. -/
structure CacheState where
  mem : List String
  lastSeen : String
deriving Repr, DecidableEq

/-- The two `localStorage` slots of one cache instance: the serialized result
set and its stored fingerprint (`*_state` key). -/
structure CacheStorage where
  setVal : Option (List String)
  fpVal : Option String
deriving Repr, DecidableEq

/-- The `useState` initializer (SimilarIdeas.tsx lines 26-33): parse the
persisted set if present, `[]` otherwise (also on a parse failure). -/
def cacheInit (st : CacheStorage) : List String :=
  st.setVal.getD []

/-- The save effect (SimilarIdeas.tsx lines 55-60): whenever the in-memory set
is non-empty, persist it together with the current fingerprint. -/
def saveEffect (mem : List String) (fp : String) (st : CacheStorage) : CacheStorage :=
  if mem.length > 0 then { setVal := some mem, fpVal := some fp } else st

/-- The clear effect (SimilarIdeas.tsx lines 63-79): clear on zero documents,
or when the fingerprint differs from a previously seen non-empty
`lastDocumentState`; in every case `lastDocumentState` ends at the current
fingerprint (the trailing `setLastDocumentState(documentStateId)` wins the
React batch). -/
def clearEffect (totalFiles : Nat) (fp : String) (cs : CacheState) (st : CacheStorage) :
    CacheState × CacheStorage :=
  if totalFiles = 0 then
    ({ mem := [], lastSeen := fp }, { setVal := none, fpVal := none })
  else if cs.lastSeen ≠ "" ∧ fp ≠ cs.lastSeen then
    ({ mem := [], lastSeen := fp }, { setVal := none, fpVal := none })
  else
    ({ cs with lastSeen := fp }, st)

/-- The load effect (SimilarIdeas.tsx lines 82-102): guarded by the rendered
snapshot length (`similarities.length === 0`); loads the persisted set only on
a fingerprint match and removes it from storage on a mismatch (a missing
stored fingerprint compares unequal, as `null !== documentStateId`). -/
def loadEffect (totalFiles : Nat) (fp : String) (memSnapshotLen : Nat)
    (cs : CacheState) (st : CacheStorage) : CacheState × CacheStorage :=
  if totalFiles > 0 ∧ memSnapshotLen = 0 then
    match st.setVal, st.fpVal with
    | some s, some f =>
        if f = fp then ({ cs with mem := s }, st)
        else (cs, { setVal := none, fpVal := none })
    | some _, none => (cs, { setVal := none, fpVal := none })
    | none, _ => (cs, st)
  else (cs, st)

/-- One mount of a cache component: the `useState` initializer followed by the
first effect pass (save, clear, load, in declaration order).  Each effect reads
the render snapshot (`mem₀`, `lastSeen = ""`) but sees the storage writes of
the effects before it; queued `setState` calls are threaded so the last write
wins, as under React batching. -/
def cacheMountPass (st0 : CacheStorage) (fp : String) (totalFiles : Nat) :
    CacheState × CacheStorage :=
  let mem0 := cacheInit st0
  let st1 := saveEffect mem0 fp st0
  let (cs1, st2) := clearEffect totalFiles fp { mem := mem0, lastSeen := "" } st1
  loadEffect totalFiles fp mem0.length cs1 st2

/-- In-memory state of the SimilarIdeas page relevant to `loadSimilarities`. -/
structure SimilarState where
  similarities : List String
  isLoading : Bool
  isRefreshing : Bool
  totalComparisons : Nat
deriving Repr, DecidableEq

/-- Outcome of the awaited `aiApi.generateSimilarities()` call. -/
inductive SimApiOutcome
  | ok (sims : List String) (total : Nat)
  | okNoField
  | failed (msg : String)
deriving Repr, DecidableEq

/-- `loadSimilarities` (SimilarIdeas.tsx lines 104-137).  Returns the new page
state together with whether the network request to the similarity collaborator
was issued. -/
def loadSimilarities (currentFiles previousFiles : List DocumentFile)
    (st : SimilarState) (isRefresh : Bool) (outcome : SimApiOutcome) :
    SimilarState × Bool :=
  let totalFiles := currentFiles.length + previousFiles.length
  if totalFiles < 2 then ({ st with similarities := [] }, false)
  else
    let st := if isRefresh then { st with isRefreshing := true } else { st with isLoading := true }
    let st :=
      match outcome with
      | .ok sims total => { st with similarities := sims, totalComparisons := total }
      | .okNoField => st
      | .failed _ => st
    ({ st with isLoading := false, isRefreshing := false }, true)

/-- The record-identity fields: everything except `content`, `pages`,
`lastRead`.  Two records agreeing here differ at most in the three
extraction-result fields. -/
def sameIdentity (g f : DocumentFile) : Prop :=
  g.id = f.id ∧ g.name = f.name ∧ g.size = f.size ∧ g.type = f.type ∧
  g.folderName = f.folderName ∧ g.savedPath = f.savedPath ∧ g.timestamp = f.timestamp

/-! ## Concrete fixtures for witnesses and counterexamples -/

/-- A path-based record that already carries extracted content. -/
def sampleFileA : DocumentFile :=
  { id := "file_1700000000000_a1b2c", name := "alpha.pdf", size := 1000,
    type := "application/pdf", folderName := "2024-01-01T00-00-00",
    savedPath := "docs/alpha.pdf", timestamp := "2024-01-01T00:00:00.000Z",
    pages := some 5, lastRead := some "1/1/2024, 10:00:00 AM",
    content := some "alpha text" }

/-- A path-based record with no content yet. -/
def sampleFileB : DocumentFile :=
  { id := "file_1700000000001_d4e5f", name := "beta.pdf", size := 2000,
    type := "application/pdf", folderName := "2024-01-01T00-00-00",
    savedPath := "docs/beta.pdf", timestamp := "2024-01-01T00:01:00.000Z" }

/-- An `uploaded/`-prefixed record whose content is missing. -/
def sampleUploadedMissing : DocumentFile :=
  { id := "file_1700000000002_g7h8i", name := "gamma.pdf", size := 3000,
    type := "application/pdf", folderName := "2024-01-01T00-00-00",
    savedPath := "uploaded/gamma.pdf", timestamp := "2024-01-01T00:02:00.000Z" }

/-- A record whose id is the empty string (degenerate input for the
fingerprint). -/
def emptyIdFile : DocumentFile :=
  { id := "", name := "", size := 0, type := "", folderName := "",
    savedPath := "", timestamp := "" }

/-- A quiescent store holding `sampleFileA` as the only current file. -/
def sampleState : DocState :=
  { previousFiles := [], currentFiles := [sampleFileA], selectedFile := none,
    isInitialSetupComplete := true, isLoadingContent := false }

/-- A store with an extraction already in flight. -/
def busyState : DocState :=
  { previousFiles := [], currentFiles := [sampleFileB], selectedFile := none,
    isInitialSetupComplete := true, isLoadingContent := true }

/-! ## Theorems -/

/-- Claim C8: after `resetAll`, from any state, both lists are empty, no file
is selected, both flags are false, and every persisted key (the setup flag,
both file lists, and all three derived-result caches together with their
stored fingerprints) is absent from persistent storage. -/
theorem resetAll_clears_everything (s : DocState) (st : PersistedStore) :
    (resetAll s st).1.currentFiles = [] ∧
    (resetAll s st).1.previousFiles = [] ∧
    (resetAll s st).1.selectedFile = none ∧
    (resetAll s st).1.isInitialSetupComplete = false ∧
    (resetAll s st).1.isLoadingContent = false ∧
    (resetAll s st).2.isInitialSetupComplete = none ∧
    (resetAll s st).2.previousFiles = none ∧
    (resetAll s st).2.currentFiles = none ∧
    (resetAll s st).2.aiPodcastRecommendations = none ∧
    (resetAll s st).2.aiPodcastRecommendations_state = none ∧
    (resetAll s st).2.documentSimilarities = none ∧
    (resetAll s st).2.documentSimilarities_state = none ∧
    (resetAll s st).2.aiInsights = none ∧
    (resetAll s st).2.aiInsights_state = none := by
  simp [resetAll]

/-- Claim C9: with fewer than 2 total documents, `loadSimilarities` clears the
result list and returns without issuing the request to the external similarity
collaborator (the returned flag records whether the request was made). -/
theorem loadSimilarities_blocks_below_two
    (currentFiles previousFiles : List DocumentFile) (st : SimilarState)
    (isRefresh : Bool) (outcome : SimApiOutcome)
    (h : currentFiles.length + previousFiles.length < 2) :
    loadSimilarities currentFiles previousFiles st isRefresh outcome
      = ({ st with similarities := [] }, false) := by
  simp [loadSimilarities, h]

/-- Witness for `loadSimilarities_blocks_below_two` at one document. -/
theorem loadSimilarities_blocks_below_two_witness :
    loadSimilarities [sampleFileA] [] ⟨["old"], false, false, 7⟩ false (.ok ["fresh"] 3)
      = (⟨[], false, false, 7⟩, false) :=
  loadSimilarities_blocks_below_two [sampleFileA] [] ⟨["old"], false, false, 7⟩
    false (.ok ["fresh"] 3) (by decide)

/-- Claim C1 (failing evaluation): a cache component mounted while persistent
storage holds a non-empty result set stamped with an outdated fingerprint
`"fpOld"` — the live fingerprint being `"fpNew"` — ends its first effect pass
with the stale set in view and the storage re-stamped with the new
fingerprint, instead of discarding it; and the state reached is a fixpoint of
the clear effect, so later passes never repair it. -/
theorem cacheMount_loads_stale_set :
    cacheMountPass { setVal := some ["simA"], fpVal := some "fpOld" } "fpNew" 1
      = ({ mem := ["simA"], lastSeen := "fpNew" },
         { setVal := some ["simA"], fpVal := some "fpNew" }) ∧
    clearEffect 1 "fpNew" { mem := ["simA"], lastSeen := "fpNew" }
        { setVal := some ["simA"], fpVal := some "fpNew" }
      = ({ mem := ["simA"], lastSeen := "fpNew" },
         { setVal := some ["simA"], fpVal := some "fpNew" }) := by
  constructor
  · decide
  · decide

/-! ### Fingerprint lemmas (shared helpers) -/

theorem sorted_mergeSort_idLe (l : List String) :
    List.Sorted (· ≤ ·) (l.mergeSort idLe) := by
  have h := @List.sorted_mergeSort String idLe
    (fun a b c hab hbc => by
      simp only [idLe, decide_eq_true_eq] at hab hbc ⊢
      exact le_trans hab hbc)
    (fun a b => by
      simp only [idLe, Bool.or_eq_true, decide_eq_true_eq]
      exact le_total a b) l
  exact h.imp (fun hab => by simpa [idLe] using hab)

theorem mergeSort_idLe_eq_of_perm {l₁ l₂ : List String} (h : l₁.Perm l₂) :
    l₁.mergeSort idLe = l₂.mergeSort idLe :=
  List.eq_of_perm_of_sorted
    (((l₁.mergeSort_perm idLe).trans h).trans (l₂.mergeSort_perm idLe).symm)
    (sorted_mergeSort_idLe l₁) (sorted_mergeSort_idLe l₂)

theorem joinComma_length (l : List String) (h : l ≠ []) :
    (joinComma l).length = (l.map String.length).sum + (l.length - 1) := by
  induction l with
  | nil => exact absurd rfl h
  | cons x xs ih =>
    cases xs with
    | nil => simp [joinComma]
    | cons y ys =>
      have ih' := ih (by simp)
      have hcomma : ("," : String).length = 1 := rfl
      simp only [joinComma, String.length_append, ih', hcomma, List.map_cons,
        List.sum_cons, List.length_cons]
      omega

/-- Claim C2 counterexample: adding a record whose id is the empty string to
the empty document set leaves the fingerprint unchanged (both sides are `""`),
so "adding a new id to either list changes the fingerprint" fails as a
universal statement. -/
theorem documentStateId_empty_id_counterexample :
    documentStateId ([] ++ [emptyIdFile]) [] = documentStateId [] [] := by
  have h1 : ([""] : List String).mergeSort idLe = [""] :=
    List.perm_singleton.mp (List.mergeSort_perm _ _)
  have h2 : (([] : List String)).mergeSort idLe = [] :=
    List.perm_nil.mp (List.mergeSort_perm _ _)
  simp [documentStateId, emptyIdFile, h1, h2, joinComma]

/-- Claim C2 (amended): the fingerprint is invariant under any reordering of
either list; and appending a record to `currentFiles` changes the fingerprint
whenever at least one document is already present or the new id is non-empty
(ids produced by the code are always `file_...`-shaped, hence non-empty; only
the degenerate empty-id-on-empty-set case fails). -/
theorem documentStateId_perm_invariant_and_add_changes
    (cur cur' prev prev' : List DocumentFile) (nf : DocumentFile)
    (hc : cur.Perm cur') (hp : prev.Perm prev') :
    documentStateId cur prev = documentStateId cur' prev' ∧
    ((cur ≠ [] ∨ prev ≠ [] ∨ nf.id ≠ "") →
      documentStateId (cur ++ [nf]) prev ≠ documentStateId cur prev) := by
  constructor
  · unfold documentStateId
    exact congrArg joinComma (mergeSort_idLe_eq_of_perm ((hc.map _).append (hp.map _)))
  · intro hne
    have hperm : (((cur ++ [nf]).map (fun f => f.id)) ++ prev.map (fun f => f.id)).Perm
        ((cur.map (fun f => f.id) ++ prev.map (fun f => f.id)) ++ [nf.id]) := by
      have h1 : ((cur ++ [nf]).map (fun f => f.id)) ++ prev.map (fun f => f.id)
          = cur.map (fun f => f.id) ++ ([nf.id] ++ prev.map (fun f => f.id)) := by
        simp [List.map_append, List.append_assoc]
      have h2 : ([nf.id] ++ prev.map (fun f => f.id)).Perm
          (prev.map (fun f => f.id) ++ [nf.id]) := List.perm_append_comm
      rw [h1]
      have h3 := h2.append_left (cur.map (fun f => f.id))
      simpa [List.append_assoc] using h3
    set ids := cur.map (fun f => f.id) ++ prev.map (fun f => f.id) with hids
    rcases Nat.eq_zero_or_pos ids.length with hn | hn
    · -- both lists empty: the new fingerprint is exactly the new id
      have hboth : cur = [] ∧ prev = [] := by simpa [hids] using hn
      obtain ⟨hcur0, hprev0⟩ := hboth
      have hid : nf.id ≠ "" := by
        rcases hne with h | h | h
        · exact absurd hcur0 h
        · exact absurd hprev0 h
        · exact h
      subst hcur0; subst hprev0
      have e1 : ([nf.id] : List String).mergeSort idLe = [nf.id] :=
        List.perm_singleton.mp (List.mergeSort_perm _ _)
      have e2 : (([] : List String)).mergeSort idLe = [] :=
        List.perm_nil.mp (List.mergeSort_perm _ _)
      simpa [documentStateId, e1, e2, joinComma] using hid
    · -- at least one id present: string lengths differ
      intro heq
      have hsort : ((cur ++ [nf]).map (fun f => f.id) ++ prev.map (fun f => f.id)).mergeSort idLe
          = (ids ++ [nf.id]).mergeSort idLe := mergeSort_idLe_eq_of_perm hperm
      have hlen0 : (ids.mergeSort idLe).length = ids.length :=
        (List.mergeSort_perm ids idLe).length_eq
      have hlen1 : ((ids ++ [nf.id]).mergeSort idLe).length = ids.length + 1 := by
        have hpl := (List.mergeSort_perm (ids ++ [nf.id]) idLe).length_eq
        simp only [List.length_append, List.length_cons, List.length_nil] at hpl
        omega
      have hsum0 : ((ids.mergeSort idLe).map String.length).sum
          = (ids.map String.length).sum :=
        ((List.mergeSort_perm ids idLe).map String.length).sum_eq
      have hsum1 : (((ids ++ [nf.id]).mergeSort idLe).map String.length).sum
          = (ids.map String.length).sum + nf.id.length := by
        have := ((List.mergeSort_perm (ids ++ [nf.id]) idLe).map String.length).sum_eq
        simpa using this
      have hne0 : ids.mergeSort idLe ≠ [] := by
        intro hnil
        rw [hnil] at hlen0
        simp at hlen0
        omega
      have hne1 : (ids ++ [nf.id]).mergeSort idLe ≠ [] := by
        intro hnil
        rw [hnil] at hlen1
        simp at hlen1
      have hL0 := joinComma_length _ hne0
      have hL1 := joinComma_length _ hne1
      have hlength := congrArg String.length heq
      unfold documentStateId at hlength
      rw [hsort, ← hids] at hlength
      rw [hL0, hL1, hlen0, hlen1, hsum0, hsum1] at hlength
      omega

/-- Witness for `documentStateId_perm_invariant_and_add_changes` on concrete
two-record lists. -/
theorem documentStateId_perm_invariant_witness :
    documentStateId [sampleFileA, sampleFileB] [] = documentStateId [sampleFileB, sampleFileA] [] ∧
    documentStateId ([sampleFileA] ++ [sampleFileB]) [] ≠ documentStateId [sampleFileA] [] :=
  ⟨(documentStateId_perm_invariant_and_add_changes [sampleFileA, sampleFileB]
      [sampleFileB, sampleFileA] [] [] sampleFileB (by decide) (List.Perm.refl _)).1,
   (documentStateId_perm_invariant_and_add_changes [sampleFileA] [sampleFileA] [] []
      sampleFileB (List.Perm.refl _) (List.Perm.refl _)).2 (by decide)⟩

/-- Claim C3: at most one extraction is ever in flight.  If
`isLoadingContent` is set, any `selectFile` call is a complete no-op (no
second request, no state change); when a call does proceed, the flag always
ends false (success, thrown error and legacy-throw paths all clear it); and
every extraction request in the event trace is bracketed by setting the flag
before it and clearing it after it. -/
theorem selectFile_single_inflight (s : DocState) (f : DocumentFile)
    (o : Except String PDFContent) (now : String) :
    (s.isLoadingContent = true → selectFile s f o now = (s, [])) ∧
    (s.isLoadingContent = false → (selectFile s f o now).1.isLoadingContent = false) ∧
    (∀ p, SelectEvent.extractReq p ∈ (selectFile s f o now).2 →
      (selectFile s f o now).2
        = [SelectEvent.setLoading true, SelectEvent.extractReq p,
           SelectEvent.setLoading false]) := by
  cases hl : s.isLoadingContent with
  | true =>
    refine ⟨fun _ => by simp [selectFile, hl], fun hc => by simp [hl] at hc, fun p hp => ?_⟩
    simp [selectFile, hl] at hp
  | false =>
    refine ⟨fun hc => by simp [hl] at hc, fun _ => ?_, fun p hp => ?_⟩
    · rcases o with pc | e <;>
        simp only [selectFile, hl, Bool.false_eq_true, if_false] <;>
        split_ifs <;> simp
    · rcases o with pc | e <;>
        simp only [selectFile, hl, Bool.false_eq_true, if_false] at hp ⊢ <;>
        split_ifs at hp ⊢ <;> simp_all

/-- Witness for `selectFile_single_inflight`: on the busy store the call is a
no-op, and on a quiescent store a contentless record produces exactly the
bracketed trace. -/
theorem selectFile_single_inflight_witness :
    selectFile busyState sampleFileB (Except.error "boom") "t1" = (busyState, []) ∧
    (selectFile sampleState sampleFileB (Except.error "boom") "t1").2
      = [SelectEvent.setLoading true, SelectEvent.extractReq "docs/beta.pdf",
         SelectEvent.setLoading false] :=
  ⟨(selectFile_single_inflight busyState sampleFileB (Except.error "boom") "t1").1 rfl,
   (selectFile_single_inflight sampleState sampleFileB (Except.error "boom") "t1").2.2
     "docs/beta.pdf" (by decide)⟩

/-- Claim C5 counterexample: in a state with an extraction in flight
(`busyState`), `selectFile(r)` does not set `selectedFile` to `r` (or to any
version of it) — the whole call is a no-op and the selection stays `none`, so
the claim fails for that state. -/
theorem selectFile_busy_guard_counterexample :
    (selectFile busyState sampleFileB (Except.error "network down") "t2").1 = busyState ∧
    (selectFile busyState sampleFileB (Except.error "network down") "t2").1.selectedFile
      = none := by
  constructor <;> rfl

/-- Claim C5 (amended): in every state with no extraction in flight,
`selectFile(r)` sets `selectedFile` to `r` or to a version of `r` differing
only in the extraction-result fields (the extracted update or a sentinel
copy). -/
theorem selectFile_sets_selection (s : DocState) (f : DocumentFile)
    (o : Except String PDFContent) (now : String)
    (h : s.isLoadingContent = false) :
    ∃ g, (selectFile s f o now).1.selectedFile = some g ∧ sameIdentity g f := by
  rcases o with pc | e <;>
    simp only [selectFile, h, Bool.false_eq_true, if_false] <;>
    split_ifs <;>
    exact ⟨_, rfl, by simp [sameIdentity]⟩

/-- Witness for `selectFile_sets_selection` on a contentless `uploaded/`
record: the selection becomes the sentinel-carrying copy of the record. -/
theorem selectFile_sets_selection_witness :
    ∃ g, (selectFile sampleState sampleUploadedMissing (Except.error "boom") "t3").1.selectedFile
        = some g ∧ sameIdentity g sampleUploadedMissing :=
  selectFile_sets_selection sampleState sampleUploadedMissing (Except.error "boom") "t3" rfl

/-- Claim C10: on every failure path of `selectFile` — an `uploaded/` or
`failed/` record with missing content (Content Missing sentinel), a rejected
extraction (Error Loading Content sentinel), or the legacy `data/` path throw
— the two document lists are left unchanged, so sentinel text is never written
into either list; in the uploaded-missing case the entire effect is replacing
`selectedFile` with the sentinel copy. -/
theorem selectFile_failure_frame (s : DocState) (f : DocumentFile)
    (o : Except String PDFContent) (now : String)
    (h : s.isLoadingContent = false) :
    (isUploadedFile f = true → hasValidContent f = false →
      selectFile s f o now
        = ({ s with selectedFile := some { f with content := some contentMissingSentinel } }, [])) ∧
    (∀ e, o = Except.error e →
      (selectFile s f o now).1.currentFiles = s.currentFiles ∧
      (selectFile s f o now).1.previousFiles = s.previousFiles) ∧
    (isLegacyDataPath f = true →
      (selectFile s f o now).1.currentFiles = s.currentFiles ∧
      (selectFile s f o now).1.previousFiles = s.previousFiles) := by
  refine ⟨fun hu hv => ?_, fun e he => ?_, fun hleg => ?_⟩
  · simp [selectFile, h, hu, hv]
  · subst he
    simp only [selectFile, h, Bool.false_eq_true, if_false]
    split_ifs <;> simp
  · rcases o with pc | e <;>
      simp only [selectFile, h, Bool.false_eq_true, if_false] <;>
      split_ifs <;> simp_all

/-- Witness for `selectFile_failure_frame`: the uploaded-missing record only
replaces the selection, and a rejected extraction leaves both lists intact. -/
theorem selectFile_failure_frame_witness :
    selectFile sampleState sampleUploadedMissing (Except.error "boom") "t4"
      = ({ sampleState with
            selectedFile := some { sampleUploadedMissing with
                                    content := some contentMissingSentinel } }, []) ∧
    (selectFile sampleState sampleFileB (Except.error "boom") "t4").1.currentFiles
      = sampleState.currentFiles :=
  ⟨(selectFile_failure_frame sampleState sampleUploadedMissing (Except.error "boom") "t4"
      rfl).1 (by decide) (by decide),
   ((selectFile_failure_frame sampleState sampleFileB (Except.error "boom") "t4"
      rfl).2.1 "boom" rfl).1⟩

/-- Claim C6: `extractPDFContentFromPath` always returns a `PDFContent` value
(it is a total function: failures are encoded as data, never thrown): on
success it returns the extracted text and page count (with the JavaScript
falsy defaults), on any failure it returns a human-readable diagnostic string
with `pages = 1`, and in the timeout case the returned text contains the
substring `"timeout"` (literally lowercase, hence also case-insensitively). -/
theorem extract_total_and_sentinel (savedPath fileName apiBase : String)
    (outcome : FetchOutcome) :
    (∀ r, outcome = .success r →
      (extractPDFContentFromPath savedPath fileName apiBase outcome).text
          = (match r.text with
             | some t => if t = "" then "No text content found in PDF" else t
             | none => "No text content found in PDF") ∧
      (extractPDFContentFromPath savedPath fileName apiBase outcome).pages
          = (match r.page_count with
             | some p => if p = 0 then 1 else p
             | none => 1)) ∧
    ((∀ r, outcome ≠ .success r) →
      (extractPDFContentFromPath savedPath fileName apiBase outcome).pages = 1) ∧
    (outcome = .timeout →
      ∃ pre post, (extractPDFContentFromPath savedPath fileName apiBase outcome).text
          = pre ++ "timeout" ++ post) := by
  refine ⟨fun r hr => ?_, fun hfail => ?_, fun ht => ?_⟩
  · subst hr; exact ⟨rfl, rfl⟩
  · cases outcome with
    | success r => exact absurd rfl (hfail r)
    | httpError status body =>
      simp only [extractPDFContentFromPath]
      split_ifs <;> rfl
    | networkError msg =>
      simp only [extractPDFContentFromPath]
      split_ifs <;> rfl
    | timeout =>
      simp only [extractPDFContentFromPath]
      split_ifs <;> rfl
  · subst ht
    refine ⟨"Error processing " ++ fileName ++ "\n\nRequest ",
      " after 30000ms\n\nbackend is running at: " ++ apiBase
        ++ "\nPlease check the backend logs for more details.", ?_⟩
    have hA : ("\n\n" : String) ++ timeoutMsg ++ "\n\nbackend is running at: "
        = "\n\nRequest " ++ "timeout" ++ " after 30000ms\n\nbackend is running at: " := by
      decide
    show (extractPDFContentFromPath savedPath fileName apiBase .timeout).text = _
    simp only [extractPDFContentFromPath]
    split_ifs with hcond
    · exact absurd hcond (by decide)
    · calc genericDiag fileName timeoutMsg apiBase
          = "Error processing " ++ fileName
              ++ ("\n\n" ++ timeoutMsg ++ "\n\nbackend is running at: ")
              ++ apiBase ++ "\nPlease check the backend logs for more details." := by
            simp [genericDiag, String.append_assoc]
        _ = "Error processing " ++ fileName
              ++ ("\n\nRequest " ++ "timeout" ++ " after 30000ms\n\nbackend is running at: ")
              ++ apiBase ++ "\nPlease check the backend logs for more details." := by
            rw [hA]
        _ = _ := by simp only [String.append_assoc]

/-- Witness for `extract_total_and_sentinel` at a concrete timed-out request. -/
theorem extract_total_and_sentinel_witness :
    (extractPDFContentFromPath "docs/beta.pdf" "beta.pdf" "http://localhost:8080"
        FetchOutcome.timeout).pages = 1 ∧
    ∃ pre post,
      (extractPDFContentFromPath "docs/beta.pdf" "beta.pdf" "http://localhost:8080"
          FetchOutcome.timeout).text = pre ++ "timeout" ++ post :=
  ⟨(extract_total_and_sentinel "docs/beta.pdf" "beta.pdf" "http://localhost:8080"
      FetchOutcome.timeout).2.1 (fun r h => FetchOutcome.noConfusion h),
   (extract_total_and_sentinel "docs/beta.pdf" "beta.pdf" "http://localhost:8080"
      FetchOutcome.timeout).2.2 rfl⟩

/-- A store with a matching selection, used by the removal witness. -/
def stateWithSelected : DocState :=
  { previousFiles := [sampleFileB], currentFiles := [sampleFileA],
    selectedFile := some sampleFileA, isInitialSetupComplete := true,
    isLoadingContent := false }

/-- Claim C7: for an id present in the respective list,
`removeCurrentFile` / `removePreviousFile` removes the record from the local
list and clears `selectedFile` when it carried that id, for every outcome of
the remote document-index call (ok, non-2xx, or rejected) — the remote failure
is swallowed and local removal is never rolled back. -/
theorem remove_local_always_succeeds (s : DocState) (fileId : String)
    (remote : RemoteResult) :
    ((∃ g ∈ s.currentFiles, g.id = fileId) →
      (removeCurrentFile s fileId remote).currentFiles
          = s.currentFiles.filter (fun f => f.id ≠ fileId) ∧
      (removeCurrentFile s fileId remote).previousFiles = s.previousFiles ∧
      ∀ sf, s.selectedFile = some sf →
        (removeCurrentFile s fileId remote).selectedFile
          = if sf.id = fileId then none else some sf) ∧
    ((∃ g ∈ s.previousFiles, g.id = fileId) →
      (removePreviousFile s fileId remote).previousFiles
          = s.previousFiles.filter (fun f => f.id ≠ fileId) ∧
      (removePreviousFile s fileId remote).currentFiles = s.currentFiles ∧
      ∀ sf, s.selectedFile = some sf →
        (removePreviousFile s fileId remote).selectedFile
          = if sf.id = fileId then none else some sf) := by
  constructor
  · rintro ⟨g, hg, hgid⟩
    have hsome : (s.currentFiles.find? (fun f => f.id = fileId)).isSome := by
      rw [List.find?_isSome]
      exact ⟨g, hg, by simp [hgid]⟩
    rcases hfind : s.currentFiles.find? (fun f => f.id = fileId) with _ | g0
    · rw [hfind] at hsome; simp at hsome
    · refine ⟨by simp [removeCurrentFile, hfind], by simp [removeCurrentFile, hfind], ?_⟩
      intro sf hsf
      simp [removeCurrentFile, hfind, hsf]
  · rintro ⟨g, hg, hgid⟩
    have hsome : (s.previousFiles.find? (fun f => f.id = fileId)).isSome := by
      rw [List.find?_isSome]
      exact ⟨g, hg, by simp [hgid]⟩
    rcases hfind : s.previousFiles.find? (fun f => f.id = fileId) with _ | g0
    · rw [hfind] at hsome; simp at hsome
    · refine ⟨by simp [removePreviousFile, hfind], by simp [removePreviousFile, hfind], ?_⟩
      intro sf hsf
      simp [removePreviousFile, hfind, hsf]

/-- Witness for `remove_local_always_succeeds`: removing the selected current
record under a rejected remote call still filters the list and clears the
selection. -/
theorem remove_local_always_succeeds_witness :
    (removeCurrentFile stateWithSelected "file_1700000000000_a1b2c"
        (RemoteResult.rejected "network error")).currentFiles
      = stateWithSelected.currentFiles.filter
          (fun f => f.id ≠ "file_1700000000000_a1b2c") ∧
    (removeCurrentFile stateWithSelected "file_1700000000000_a1b2c"
        (RemoteResult.rejected "network error")).selectedFile
      = if sampleFileA.id = "file_1700000000000_a1b2c" then none
        else some sampleFileA := by
  have h := (remove_local_always_succeeds stateWithSelected "file_1700000000000_a1b2c"
      (RemoteResult.rejected "network error")).1 ⟨sampleFileA, by decide, by decide⟩
  exact ⟨h.1, h.2.2 sampleFileA rfl⟩

/-! ### Record-identity helpers (claim C4) -/

theorem sameIdentity_refl (f : DocumentFile) : sameIdentity f f :=
  ⟨rfl, rfl, rfl, rfl, rfl, rfl, rfl⟩

theorem sameIdentity_trans {a b c : DocumentFile}
    (h1 : sameIdentity a b) (h2 : sameIdentity b c) : sameIdentity a c :=
  ⟨h1.1.trans h2.1, h1.2.1.trans h2.2.1, h1.2.2.1.trans h2.2.2.1,
   h1.2.2.2.1.trans h2.2.2.2.1, h1.2.2.2.2.1.trans h2.2.2.2.2.1,
   h1.2.2.2.2.2.1.trans h2.2.2.2.2.2.1, h1.2.2.2.2.2.2.trans h2.2.2.2.2.2.2⟩

/-- Replacing the record matching `file.id` in a list by a copy sharing
`file`'s identity fields keeps every element identity-related to an element of
the original list (given that ids determine records, the store's disjointness
convention). -/
theorem mem_replace_identity {l : List DocumentFile} {file rep : DocumentFile}
    (hrep : sameIdentity rep file)
    (hl : ∀ g ∈ l, g.id = file.id → g = file) :
    ∀ g ∈ l.map (fun x => if x.id = file.id then rep else x),
      ∃ g0 ∈ l, sameIdentity g g0 := by
  intro g hg
  rcases List.mem_map.mp hg with ⟨x, hx, hxg⟩
  by_cases hid : x.id = file.id
  · have hxf := hl x hx hid
    rw [if_pos hid] at hxg
    subst hxg
    exact ⟨x, hx, by rw [hxf]; exact hrep⟩
  · rw [if_neg hid] at hxg
    subst hxg
    exact ⟨x, hx, sameIdentity_refl x⟩

/-- Every record in the lists after `selectFile` shares its identity fields
with a record of the corresponding input list. -/
theorem selectFile_lists_identity (s : DocState) (file : DocumentFile)
    (o : Except String PDFContent) (now : String)
    (hcur : ∀ g ∈ s.currentFiles, g.id = file.id → g = file)
    (hprev : ∀ g ∈ s.previousFiles, g.id = file.id → g = file) :
    (∀ g ∈ (selectFile s file o now).1.currentFiles,
        ∃ g0 ∈ s.currentFiles, sameIdentity g g0) ∧
    (∀ g ∈ (selectFile s file o now).1.previousFiles,
        ∃ g0 ∈ s.previousFiles, sameIdentity g g0) := by
  by_cases hl : s.isLoadingContent = true
  · simp only [selectFile, hl, if_true]
    exact ⟨fun g hg => ⟨g, hg, sameIdentity_refl g⟩,
           fun g hg => ⟨g, hg, sameIdentity_refl g⟩⟩
  · replace hl : s.isLoadingContent = false := by simpa using hl
    rcases o with pc | e <;>
      simp only [selectFile, hl, Bool.false_eq_true, if_false] <;>
      split_ifs <;>
      first
        | exact ⟨fun g hg => ⟨g, hg, sameIdentity_refl g⟩,
                 fun g hg => ⟨g, hg, sameIdentity_refl g⟩⟩
        | exact ⟨mem_replace_identity ⟨rfl, rfl, rfl, rfl, rfl, rfl, rfl⟩ hcur,
                 mem_replace_identity ⟨rfl, rfl, rfl, rfl, rfl, rfl, rfl⟩ hprev⟩

/-- Claim C4 counterexample: `forceRefreshFile` on a valid-path record with
extraction failing (the retry rejects) leaves the list record with `content`
cleared but `pages` and `lastRead` still carrying their old values — the
`content`/`pages`/`lastRead` triple is updated partially, not as a unit. -/
theorem forceRefresh_partial_update_counterexample :
    (forceRefreshFile sampleState sampleFileA (Except.error "backend down") "t5").1.currentFiles
      = [{ sampleFileA with content := none }] ∧
    ({ sampleFileA with content := none }).content ≠ sampleFileA.content ∧
    ({ sampleFileA with content := none }).pages = sampleFileA.pages ∧
    ({ sampleFileA with content := none }).lastRead = sampleFileA.lastRead := by
  refine ⟨by decide, by decide, rfl, rfl⟩

/-- Claim C4 (amended): a record's `id` — indeed its whole identity part
(`id`, `name`, `size`, `type`, `folderName`, `savedPath`, `timestamp`) — never
changes after creation: `content`/`pages`/`lastRead` are the only fields the
mutating store operations (`selectFile`, `forceRefreshFile`) ever change.  The
extraction success path updates the three as a unit, but `forceRefreshFile`
clears `content` alone, so the as-a-unit half of the original claim holds only
for `selectFile`. -/
theorem record_identity_preserved (s : DocState) (file : DocumentFile)
    (o : Except String PDFContent) (now : String)
    (hcur : ∀ g ∈ s.currentFiles, g.id = file.id → g = file)
    (hprev : ∀ g ∈ s.previousFiles, g.id = file.id → g = file) :
    (∀ g ∈ (selectFile s file o now).1.currentFiles,
        ∃ g0 ∈ s.currentFiles, sameIdentity g g0) ∧
    (∀ g ∈ (selectFile s file o now).1.previousFiles,
        ∃ g0 ∈ s.previousFiles, sameIdentity g g0) ∧
    (∀ g ∈ (forceRefreshFile s file o now).1.currentFiles,
        ∃ g0 ∈ s.currentFiles, sameIdentity g g0) ∧
    (∀ g ∈ (forceRefreshFile s file o now).1.previousFiles,
        ∃ g0 ∈ s.previousFiles, sameIdentity g g0) := by
  obtain ⟨hsc, hsp⟩ := selectFile_lists_identity s file o now hcur hprev
  refine ⟨hsc, hsp, ?_, ?_⟩ <;> clear hsc hsp
  all_goals
    by_cases hleg : isLegacyDataPath file = true
  · simp only [forceRefreshFile, hleg, if_true]
    intro g hg
    exact ⟨g, (List.mem_filter.mp hg).1, sameIdentity_refl g⟩
  · replace hleg : isLegacyDataPath file = false := by simpa using hleg
    simp only [forceRefreshFile, hleg, Bool.false_eq_true, if_false]
    intro g hg
    have hcur2 : ∀ g2 ∈ s.currentFiles.map
        (fun x => if x.id = file.id then { file with content := none } else x),
        g2.id = ({ file with content := none } : DocumentFile).id →
          g2 = { file with content := none } := by
      intro g2 hg2 hid2
      rcases List.mem_map.mp hg2 with ⟨x, hx, hxg⟩
      by_cases hxid : x.id = file.id
      · rw [if_pos hxid] at hxg
        exact hxg.symm
      · rw [if_neg hxid] at hxg
        subst hxg
        exact absurd hid2 hxid
    have hprev2 : ∀ g2 ∈ s.previousFiles.map
        (fun x => if x.id = file.id then { file with content := none } else x),
        g2.id = ({ file with content := none } : DocumentFile).id →
          g2 = { file with content := none } := by
      intro g2 hg2 hid2
      rcases List.mem_map.mp hg2 with ⟨x, hx, hxg⟩
      by_cases hxid : x.id = file.id
      · rw [if_pos hxid] at hxg
        exact hxg.symm
      · rw [if_neg hxid] at hxg
        subst hxg
        exact absurd hid2 hxid
    have hstep := selectFile_lists_identity
      { s with
          previousFiles := s.previousFiles.map
            (fun x => if x.id = file.id then { file with content := none } else x),
          currentFiles := s.currentFiles.map
            (fun x => if x.id = file.id then { file with content := none } else x) }
      { file with content := none } o now hcur2 hprev2
    rcases hstep.1 g hg with ⟨g1, hg1, hgid1⟩
    rcases @mem_replace_identity s.currentFiles file { file with content := none }
        ⟨rfl, rfl, rfl, rfl, rfl, rfl, rfl⟩ hcur g1 hg1 with ⟨g0, hg0, hgid0⟩
    exact ⟨g0, hg0, sameIdentity_trans hgid1 hgid0⟩
  · simp only [forceRefreshFile, hleg, if_true]
    intro g hg
    exact ⟨g, (List.mem_filter.mp hg).1, sameIdentity_refl g⟩
  · replace hleg : isLegacyDataPath file = false := by simpa using hleg
    simp only [forceRefreshFile, hleg, Bool.false_eq_true, if_false]
    intro g hg
    have hcur2 : ∀ g2 ∈ s.currentFiles.map
        (fun x => if x.id = file.id then { file with content := none } else x),
        g2.id = ({ file with content := none } : DocumentFile).id →
          g2 = { file with content := none } := by
      intro g2 hg2 hid2
      rcases List.mem_map.mp hg2 with ⟨x, hx, hxg⟩
      by_cases hxid : x.id = file.id
      · rw [if_pos hxid] at hxg
        exact hxg.symm
      · rw [if_neg hxid] at hxg
        subst hxg
        exact absurd hid2 hxid
    have hprev2 : ∀ g2 ∈ s.previousFiles.map
        (fun x => if x.id = file.id then { file with content := none } else x),
        g2.id = ({ file with content := none } : DocumentFile).id →
          g2 = { file with content := none } := by
      intro g2 hg2 hid2
      rcases List.mem_map.mp hg2 with ⟨x, hx, hxg⟩
      by_cases hxid : x.id = file.id
      · rw [if_pos hxid] at hxg
        exact hxg.symm
      · rw [if_neg hxid] at hxg
        subst hxg
        exact absurd hid2 hxid
    have hstep := selectFile_lists_identity
      { s with
          previousFiles := s.previousFiles.map
            (fun x => if x.id = file.id then { file with content := none } else x),
          currentFiles := s.currentFiles.map
            (fun x => if x.id = file.id then { file with content := none } else x) }
      { file with content := none } o now hcur2 hprev2
    rcases hstep.2 g hg with ⟨g1, hg1, hgid1⟩
    rcases @mem_replace_identity s.previousFiles file { file with content := none }
        ⟨rfl, rfl, rfl, rfl, rfl, rfl, rfl⟩ hprev g1 hg1 with ⟨g0, hg0, hgid0⟩
    exact ⟨g0, hg0, sameIdentity_trans hgid1 hgid0⟩

/-- Witness for `record_identity_preserved`: the record left in the list after
a failing forced refresh still shares its identity fields with the original
record. -/
theorem record_identity_preserved_witness :
    ∃ g0 ∈ sampleState.currentFiles,
      sameIdentity { sampleFileA with content := none } g0 := by
  have h := (record_identity_preserved sampleState sampleFileA
      (Except.error "backend down") "t5" (by decide) (by decide)).2.2.1
  exact h { sampleFileA with content := none } (by decide)

end DocMind
